import Mathlib

/-!
Shallow embedding of the smart-farm controller (`smartfarm.py`,
class `SmartFarmController`) and proofs of its specified properties.

Python floats are modelled as rationals (`ℚ`); `random.uniform` draws become
explicit delta parameters; `print` side effects that announce actuator
transitions become explicit transition-event lists; `datetime` timestamps
become opaque strings passed in by the caller.
-/

/-- Embeds the `SensorData` dataclass: one log record. -/
structure SensorData where
  timestamp : String
  temperature : ℚ
  humidity : ℚ
  fan_status : Bool
  pump_status : Bool
deriving DecidableEq

/-- The mutable fields of `SmartFarmController`. -/
structure FarmState where
  temp_threshold : ℚ
  humidity_threshold : ℚ
  fan_running : Bool
  pump_running : Bool
  data_log : List SensorData
  current_temp : ℚ
  current_humidity : ℚ
deriving DecidableEq

/-- The state built by `SmartFarmController.__init__`. -/
def initState : FarmState :=
  { temp_threshold := 30
    humidity_threshold := 40
    fan_running := false
    pump_running := false
    data_log := []
    current_temp := 25
    current_humidity := 45 }

/-- The temperature hysteresis is the literal `2` in
`make_control_decisions` (`temperature < self.temp_threshold - 2`). -/
def temp_hysteresis : ℚ := 2

/-- The humidity hysteresis is the literal `10` in
`make_control_decisions` (`humidity > self.humidity_threshold + 10`). -/
def humidity_hysteresis : ℚ := 10

/-- Which actuator a transition event concerns. -/
inductive Device where
  | fan
  | pump
deriving DecidableEq

/-- A state-change announcement (the `print` calls in `control_fan` /
`control_pump` that fire only when the stored state actually changes). -/
structure TransitionEvent where
  device : Device
  new_state : Bool
deriving DecidableEq

/-- Embeds `control_fan`: mutates `fan_running` and emits an event only when
the commanded state differs from the stored one. -/
def control_fan (s : FarmState) (turn_on : Bool) :
    FarmState × List TransitionEvent :=
  if turn_on && !s.fan_running then
    ({ s with fan_running := true }, [⟨Device.fan, true⟩])
  else if !turn_on && s.fan_running then
    ({ s with fan_running := false }, [⟨Device.fan, false⟩])
  else
    (s, [])

/-- Embeds `control_pump`: mutates `pump_running` and emits an event only
when the commanded state differs from the stored one. -/
def control_pump (s : FarmState) (turn_on : Bool) :
    FarmState × List TransitionEvent :=
  if turn_on && !s.pump_running then
    ({ s with pump_running := true }, [⟨Device.pump, true⟩])
  else if !turn_on && s.pump_running then
    ({ s with pump_running := false }, [⟨Device.pump, false⟩])
  else
    (s, [])

/-- Embeds `make_control_decisions`: hysteresis bang-bang rules for fan
(temperature) and pump (humidity), applied sequentially. -/
def make_control_decisions (s : FarmState) (temperature humidity : ℚ) :
    FarmState × List TransitionEvent :=
  let fanStep :=
    if temperature > s.temp_threshold then control_fan s true
    else if temperature < s.temp_threshold - 2 then control_fan s false
    else (s, [])
  let pumpStep :=
    if humidity < fanStep.1.humidity_threshold then control_pump fanStep.1 true
    else if humidity > fanStep.1.humidity_threshold + 10 then
      control_pump fanStep.1 false
    else (fanStep.1, [])
  (pumpStep.1, fanStep.2 ++ pumpStep.2)

/-- One decision step on the state alone (used to fold reading sequences). -/
def stepDecide (s : FarmState) (r : ℚ × ℚ) : FarmState :=
  (make_control_decisions s r.1 r.2).1

/-- Embeds the list manipulation of `log_data`: append at the tail, then
`pop(0)` if the length exceeds 100. -/
def logAppend (log : List SensorData) (e : SensorData) : List SensorData :=
  let l := log ++ [e]
  if l.length > 100 then l.tail else l

/-- Embeds `log_data`: builds a `SensorData` record from the current reading
and actuator state and appends it to the bounded log. -/
def log_data (s : FarmState) (timestamp : String)
    (temperature humidity : ℚ) : FarmState :=
  let data : SensorData :=
    ⟨timestamp, temperature, humidity, s.fan_running, s.pump_running⟩
  { s with data_log := logAppend s.data_log data }

/-- Embeds Python `round` on rationals: round half to even. -/
def pyRound (x : ℚ) : ℤ :=
  let f : ℤ := ⌊x⌋
  let r : ℚ := x - f
  if r < 1 / 2 then f
  else if 1 / 2 < r then f + 1
  else if 2 ∣ f then f else f + 1

/-- Embeds Python `round(x, 1)`: round to one decimal place. -/
def roundTo1 (x : ℚ) : ℚ := (pyRound (10 * x) : ℚ) / 10

/-- Embeds `read_sensors`, with the two `random.uniform` draws passed in
explicitly as `dt ∈ [-2, 3]` and `dh ∈ [-5, 8]`: applies the actuator biases,
scales by 0.1, accumulates into the internal environment state, clamps, and
returns the clamped values rounded to one decimal. -/
def read_sensors (s : FarmState) (dt dh : ℚ) : FarmState × (ℚ × ℚ) :=
  let temp_variation := dt - (if s.fan_running then 2 else 0)
  let humidity_variation := dh + (if s.pump_running then 5 else 0)
  let t := s.current_temp + temp_variation * (1 / 10)
  let h := s.current_humidity + humidity_variation * (1 / 10)
  let t' := max 15 (min 45 t)
  let h' := max 20 (min 90 h)
  ({ s with current_temp := t', current_humidity := h' },
   (roundTo1 t', roundTo1 h'))

/-- The statistics record returned by `get_statistics` on a non-empty log. -/
structure Statistics where
  avg_temp : ℚ
  max_temp : ℚ
  min_temp : ℚ
  avg_humidity : ℚ
  max_humidity : ℚ
  min_humidity : ℚ
  fan_runtime : ℕ
  pump_runtime : ℕ
  total_records : ℕ
deriving DecidableEq

/-- Python `max` over a non-empty list given as head and tail. -/
def listMax (x : ℚ) (xs : List ℚ) : ℚ := xs.foldl max x

/-- Python `min` over a non-empty list given as head and tail. -/
def listMin (x : ℚ) (xs : List ℚ) : ℚ := xs.foldl min x

/-- Embeds `get_statistics`: `none` models the empty dict `{}` returned on an
empty log; otherwise the populated statistics dict. -/
def get_statistics (log : List SensorData) : Option Statistics :=
  match log with
  | [] => none
  | d :: rest =>
    let temps := (d :: rest).map SensorData.temperature
    let humids := (d :: rest).map SensorData.humidity
    some
      { avg_temp := roundTo1 (temps.sum / temps.length)
        max_temp := listMax d.temperature (rest.map SensorData.temperature)
        min_temp := listMin d.temperature (rest.map SensorData.temperature)
        avg_humidity := roundTo1 (humids.sum / humids.length)
        max_humidity := listMax d.humidity (rest.map SensorData.humidity)
        min_humidity := listMin d.humidity (rest.map SensorData.humidity)
        fan_runtime := (d :: rest).countP (fun x => x.fan_status)
        pump_runtime := (d :: rest).countP (fun x => x.pump_status)
        total_records := (d :: rest).length }

/-- Embeds the threshold assignment `farm.temp_threshold = float(new_temp)`
in `main`, menu option 3: a direct field write with no validation. -/
def set_temp_threshold (s : FarmState) (v : ℚ) : FarmState :=
  { s with temp_threshold := v }

/-- Embeds the threshold assignment
`farm.humidity_threshold = float(new_humidity)` in `main`, menu option 3:
a direct field write with no validation. -/
def set_humidity_threshold (s : FarmState) (v : ℚ) : FarmState :=
  { s with humidity_threshold := v }

/-- Applying a desired actuator state (the apply layer as it appears in the
source, where `make_control_decisions` issues `control_fan` then
`control_pump`): command both devices and collect the transition events. -/
def apply_state (s : FarmState) (fan_des pump_des : Bool) :
    FarmState × List TransitionEvent :=
  let f := control_fan s fan_des
  let p := control_pump f.1 pump_des
  (p.1, f.2 ++ p.2)

/-- Modelled from the spec (§3 invariant): the repository has no
band-validation code, so the predicate "the hysteresis/threshold combination
would invert a control band" follows the spec's words: a hysteresis value is
negative, or a hysteresis exceeds its threshold so that an off-bound crosses
the on-bound in the wrong direction. -/
def band_inverting (t_thr t_hys h_thr h_hys : ℚ) : Prop :=
  t_hys < 0 ∨ h_hys < 0 ∨ t_thr < t_hys ∨ h_thr + h_hys < h_thr

instance (t_thr t_hys h_thr h_hys : ℚ) :
    Decidable (band_inverting t_thr t_hys h_thr h_hys) := by
  unfold band_inverting
  infer_instance

/-! ### Helper lemmas on the actuator layer -/

theorem control_fan_fst_fan (s : FarmState) (b : Bool) :
    (control_fan s b).1.fan_running = b := by
  unfold control_fan
  cases b <;> cases hf : s.fan_running <;> simp [hf]

theorem control_pump_fst_pump (s : FarmState) (b : Bool) :
    (control_pump s b).1.pump_running = b := by
  unfold control_pump
  cases b <;> cases hp : s.pump_running <;> simp [hp]

theorem control_fan_frame (s : FarmState) (b : Bool) :
    (control_fan s b).1.pump_running = s.pump_running ∧
    (control_fan s b).1.temp_threshold = s.temp_threshold ∧
    (control_fan s b).1.humidity_threshold = s.humidity_threshold ∧
    (control_fan s b).1.data_log = s.data_log ∧
    (control_fan s b).1.current_temp = s.current_temp ∧
    (control_fan s b).1.current_humidity = s.current_humidity := by
  unfold control_fan
  split_ifs <;> simp

theorem control_pump_frame (s : FarmState) (b : Bool) :
    (control_pump s b).1.fan_running = s.fan_running ∧
    (control_pump s b).1.temp_threshold = s.temp_threshold ∧
    (control_pump s b).1.humidity_threshold = s.humidity_threshold ∧
    (control_pump s b).1.data_log = s.data_log ∧
    (control_pump s b).1.current_temp = s.current_temp ∧
    (control_pump s b).1.current_humidity = s.current_humidity := by
  unfold control_pump
  split_ifs <;> simp

theorem pumpStage_fan (s' : FarmState) (c1 c2 : Prop) [Decidable c1]
    [Decidable c2] :
    ((if c1 then control_pump s' true
      else if c2 then control_pump s' false
      else (s', ([] : List TransitionEvent))).1).fan_running =
      s'.fan_running := by
  split_ifs <;> simp [(control_pump_frame _ _).1]

theorem mcd_fan_running (s : FarmState) (t h : ℚ) :
    (make_control_decisions s t h).1.fan_running =
      (if t > s.temp_threshold then true
       else if t < s.temp_threshold - 2 then false
       else s.fan_running) := by
  unfold make_control_decisions
  simp only [pumpStage_fan]
  split_ifs <;> simp [control_fan_fst_fan]

theorem mcd_pump_running (s : FarmState) (t h : ℚ) :
    (make_control_decisions s t h).1.pump_running =
      (if h < s.humidity_threshold then true
       else if h > s.humidity_threshold + 10 then false
       else s.pump_running) := by
  unfold make_control_decisions
  have hth : ∀ b, (control_fan s b).1.humidity_threshold =
      s.humidity_threshold := fun b => (control_fan_frame s b).2.2.1
  have hpr : ∀ b, (control_fan s b).1.pump_running = s.pump_running :=
    fun b => (control_fan_frame s b).1
  split_ifs <;>
    simp [hth, hpr, control_pump_fst_pump] <;>
    split_ifs <;>
    simp_all [hth, hpr, control_pump_fst_pump]

/-! ### Claim theorems -/

/-- C1: the decision step sets the desired fan state to on when the
temperature exceeds `temp_threshold`, to off when it is below
`temp_threshold - temp_hysteresis`, and retains the current fan state in
the dead band; and sets the desired pump state to on when the humidity is
below `humidity_threshold`, to off when it exceeds
`humidity_threshold + humidity_hysteresis`, and retains the current pump
state otherwise. -/
theorem decision_rules_correct (s : FarmState) (t h : ℚ) :
    ((make_control_decisions s t h).1.fan_running =
      if t > s.temp_threshold then true
      else if t < s.temp_threshold - temp_hysteresis then false
      else s.fan_running) ∧
    ((make_control_decisions s t h).1.pump_running =
      if h < s.humidity_threshold then true
      else if h > s.humidity_threshold + humidity_hysteresis then false
      else s.pump_running) :=
  ⟨by rw [mcd_fan_running]; rfl, by rw [mcd_pump_running]; rfl⟩

/-- C5: applying the same desired actuator state twice in a row yields a
transition event per changed device on the first application only and none
on the second; commanding a device to the state it is already in is a
silent no-op that leaves the stored state unchanged. -/
theorem apply_idempotent_events (s : FarmState) (fd pd : Bool) :
    (apply_state (apply_state s fd pd).1 fd pd).1 = (apply_state s fd pd).1 ∧
    (apply_state (apply_state s fd pd).1 fd pd).2 = [] ∧
    (apply_state s fd pd).2 =
      (if fd = s.fan_running then [] else [⟨Device.fan, fd⟩]) ++
      (if pd = s.pump_running then [] else [⟨Device.pump, pd⟩]) ∧
    control_fan s s.fan_running = (s, []) ∧
    control_pump s s.pump_running = (s, []) := by
  obtain ⟨tt, ht, fr, pr, dl, ct, ch⟩ := s
  cases fd <;> cases pd <;> cases fr <;> cases pr <;>
    simp [apply_state, control_fan, control_pump]

/-- C6: statistics on an empty history is the explicit "no data" result
(`none`, embedding the empty dict `{}`), not an exception and not
zero-valued statistics. -/
theorem statistics_empty_no_data : get_statistics [] = none := rfl

/-- C8: with the default thresholds (30 with hysteresis 2, 40 with
hysteresis 10) and both devices initially off, the readings (32, 35),
(31, 45), (27, 52) drive the actuators to (on, on), (on, on), (off, off)
in that order. -/
theorem example_scenario_run :
    ((stepDecide initState (32, 35)).fan_running,
     (stepDecide initState (32, 35)).pump_running) = (true, true) ∧
    ((stepDecide (stepDecide initState (32, 35)) (31, 45)).fan_running,
     (stepDecide (stepDecide initState (32, 35)) (31, 45)).pump_running) =
      (true, true) ∧
    ((stepDecide (stepDecide (stepDecide initState (32, 35)) (31, 45))
        (27, 52)).fan_running,
     (stepDecide (stepDecide (stepDecide initState (32, 35)) (31, 45))
        (27, 52)).pump_running) = (false, false) := by
  refine ⟨?_, ?_, ?_⟩ <;>
    norm_num [stepDecide, make_control_decisions, control_fan, control_pump,
      initState]

/-- C10: `control_fan` changes at most the fan flag and `control_pump` at
most the pump flag; the other device's flag, both thresholds, the internal
environment state and the history log are unchanged by either operation. -/
theorem control_frame_effects (s : FarmState) (b : Bool) :
    ((control_fan s b).1.pump_running = s.pump_running ∧
     (control_fan s b).1.temp_threshold = s.temp_threshold ∧
     (control_fan s b).1.humidity_threshold = s.humidity_threshold ∧
     (control_fan s b).1.data_log = s.data_log ∧
     (control_fan s b).1.current_temp = s.current_temp ∧
     (control_fan s b).1.current_humidity = s.current_humidity) ∧
    ((control_pump s b).1.fan_running = s.fan_running ∧
     (control_pump s b).1.temp_threshold = s.temp_threshold ∧
     (control_pump s b).1.humidity_threshold = s.humidity_threshold ∧
     (control_pump s b).1.data_log = s.data_log ∧
     (control_pump s b).1.current_temp = s.current_temp ∧
     (control_pump s b).1.current_humidity = s.current_humidity) :=
  ⟨control_fan_frame s b, control_pump_frame s b⟩

/-! ### History-log helpers -/

theorem logAppend_fit (log : List SensorData) (e : SensorData)
    (h : log.length < 100) : logAppend log e = log ++ [e] := by
  unfold logAppend
  rw [if_neg]
  simp
  omega

theorem logAppend_full (x : SensorData) (xs : List SensorData)
    (e : SensorData) (h : xs.length = 99) :
    logAppend (x :: xs) e = xs ++ [e] := by
  unfold logAppend
  rw [if_pos]
  · rfl
  · simp [h]

theorem foldl_logAppend_drop (es : List SensorData) :
    ∀ log : List SensorData, log.length ≤ 100 →
      List.foldl logAppend log es =
        (log ++ es).drop (log.length + es.length - 100) := by
  induction es with
  | nil =>
    intro log hlen
    simp [Nat.sub_eq_zero_of_le hlen]
  | cons e es ih =>
    intro log hlen
    rw [List.foldl_cons]
    rcases Nat.lt_or_ge log.length 100 with hc | hc
    · rw [logAppend_fit log e hc, ih (log ++ [e]) (by simp; omega)]
      have harith : (log ++ [e]).length + es.length - 100 =
          log.length + (e :: es).length - 100 := by simp; omega
      rw [harith, List.append_assoc]
      rfl
    · have hc' : log.length = 100 := le_antisymm hlen hc
      cases log with
      | nil => simp at hc'
      | cons x xs =>
        have hx : xs.length = 99 := by simp at hc'; omega
        rw [logAppend_full x xs e hx, ih (xs ++ [e]) (by simp [hx])]
        have h1 : (xs ++ [e]).length + es.length - 100 = es.length := by
          simp only [List.length_append, List.length_singleton, hx]
          omega
        have h2 : (x :: xs).length + (e :: es).length - 100 =
            es.length + 1 := by
          simp only [List.length_cons, hx]
          omega
        rw [h1, h2, List.append_assoc, List.singleton_append,
          List.cons_append, List.drop_succ_cons]

/-- C2: starting from the empty history, the log never grows past the
capacity 100, and after any sequence of appends it holds exactly the
last `min 100 n` appended entries in their original insertion order
(`es.drop (es.length - 100)`): after `100 + k` appends the `k` oldest
entries have been evicted, oldest first. -/
theorem history_log_bounded_fifo (es : List SensorData) :
    (List.foldl logAppend [] es).length ≤ 100 ∧
    List.foldl logAppend [] es = es.drop (es.length - 100) := by
  have h := foldl_logAppend_drop es [] (by simp)
  simp only [List.nil_append, List.length_nil, Nat.zero_add] at h
  refine ⟨?_, h⟩
  rw [h, List.length_drop]
  omega

/-! ### Decision-step frame helpers -/

theorem mcd_thresholds (s : FarmState) (t h : ℚ) :
    (make_control_decisions s t h).1.temp_threshold = s.temp_threshold ∧
    (make_control_decisions s t h).1.humidity_threshold =
      s.humidity_threshold := by
  unfold make_control_decisions
  constructor <;>
  · split_ifs <;>
      simp [(control_fan_frame _ _).2.1, (control_fan_frame _ _).2.2.1,
        (control_pump_frame _ _).2.1, (control_pump_frame _ _).2.2.1] <;>
      split_ifs <;>
      simp [(control_fan_frame _ _).2.1, (control_fan_frame _ _).2.2.1,
        (control_pump_frame _ _).2.1, (control_pump_frame _ _).2.2.1]

theorem sticky_aux (rs : List (ℚ × ℚ)) :
    ∀ s : FarmState, s.fan_running = true →
      (∀ r ∈ rs, ¬(r.1 < s.temp_threshold - 2)) →
      (List.foldl stepDecide s rs).fan_running = true := by
  induction rs with
  | nil =>
    intro s hon _
    simpa using hon
  | cons r rs ih =>
    intro s hon hband
    rw [List.foldl_cons]
    have hth : (stepDecide s r).temp_threshold = s.temp_threshold :=
      (mcd_thresholds s r.1 r.2).1
    apply ih
    · show (make_control_decisions s r.1 r.2).1.fan_running = true
      rw [mcd_fan_running]
      split_ifs with h1 h2
      · rfl
      · exact absurd h2 (hband r (by simp))
      · exact hon
    · intro r' hr'
      rw [hth]
      exact hband r' (List.mem_cons_of_mem r hr')

/-- C4: once the fan is on, no sequence of readings whose temperatures all
stay at or above `temp_threshold - temp_hysteresis` turns it off; and since
the hysteresis is positive, every temperature in the half-open band
`(temp_threshold - temp_hysteresis, temp_threshold]` retains the fan's
prior state. -/
theorem fan_hysteresis_sticky (s : FarmState) (rs : List (ℚ × ℚ))
    (hon : s.fan_running = true)
    (hband : ∀ r ∈ rs, ¬(r.1 < s.temp_threshold - temp_hysteresis)) :
    (List.foldl stepDecide s rs).fan_running = true ∧
    temp_hysteresis > 0 ∧
    ∀ t h : ℚ, s.temp_threshold - temp_hysteresis < t →
      t ≤ s.temp_threshold →
      (make_control_decisions s t h).1.fan_running = s.fan_running := by
  simp only [temp_hysteresis] at hband
  refine ⟨sticky_aux rs s hon hband, by norm_num [temp_hysteresis], ?_⟩
  intro t h h1 h2
  rw [mcd_fan_running, if_neg (by simp; exact h2),
    if_neg (by simp only [temp_hysteresis] at h1; linarith)]

/-- Witness for `fan_hysteresis_sticky`: with the fan on at the default
thresholds, the in-band readings (29, 45) then (28.5, 45) leave it on. -/
theorem fan_hysteresis_sticky_witness :
    (List.foldl stepDecide { initState with fan_running := true }
      [((29 : ℚ), (45 : ℚ)), (28.5, 45)]).fan_running = true ∧
    temp_hysteresis > 0 ∧
    ∀ t h : ℚ,
      ({ initState with fan_running := true } : FarmState).temp_threshold -
        temp_hysteresis < t →
      t ≤ ({ initState with fan_running := true } : FarmState).temp_threshold →
      (make_control_decisions { initState with fan_running := true }
        t h).1.fan_running =
        ({ initState with fan_running := true } : FarmState).fan_running :=
  fan_hysteresis_sticky { initState with fan_running := true }
    [((29 : ℚ), (45 : ℚ)), (28.5, 45)] rfl
    (by
      intro r hr
      simp only [List.mem_cons, List.not_mem_nil, or_false] at hr
      rcases hr with h | h <;> simp [h, initState, temp_hysteresis] <;>
        norm_num)

/-! ### Fold-max / fold-min helpers for the statistics aggregator -/

theorem self_le_foldl_max (l : List ℚ) : ∀ a : ℚ, a ≤ l.foldl max a := by
  induction l with
  | nil => intro a; simp
  | cons x xs ih =>
    intro a
    rw [List.foldl_cons]
    exact le_trans (le_max_left a x) (ih (max a x))

theorem mem_le_foldl_max (l : List ℚ) :
    ∀ a : ℚ, ∀ x ∈ l, x ≤ l.foldl max a := by
  induction l with
  | nil => intro a x hx; simp at hx
  | cons y ys ih =>
    intro a x hx
    rw [List.foldl_cons]
    rcases List.mem_cons.mp hx with h | h
    · subst h
      exact le_trans (le_max_right a x) (self_le_foldl_max ys _)
    · exact ih (max a y) x h

theorem foldl_max_mem (l : List ℚ) :
    ∀ a : ℚ, l.foldl max a = a ∨ l.foldl max a ∈ l := by
  induction l with
  | nil => intro a; left; rfl
  | cons y ys ih =>
    intro a
    rw [List.foldl_cons]
    rcases ih (max a y) with h | h
    · rcases max_cases a y with ⟨he, _⟩ | ⟨he, _⟩
      · left
        rw [h, he]
      · right
        rw [h, he]
        exact List.mem_cons_self y ys
    · right
      exact List.mem_cons_of_mem y h

theorem foldl_min_le_self (l : List ℚ) : ∀ a : ℚ, l.foldl min a ≤ a := by
  induction l with
  | nil => intro a; simp
  | cons x xs ih =>
    intro a
    rw [List.foldl_cons]
    exact le_trans (ih (min a x)) (min_le_left a x)

theorem foldl_min_le_mem (l : List ℚ) :
    ∀ a : ℚ, ∀ x ∈ l, l.foldl min a ≤ x := by
  induction l with
  | nil => intro a x hx; simp at hx
  | cons y ys ih =>
    intro a x hx
    rw [List.foldl_cons]
    rcases List.mem_cons.mp hx with h | h
    · subst h
      exact le_trans (foldl_min_le_self ys _) (min_le_right a x)
    · exact ih (min a y) x h

theorem foldl_min_mem (l : List ℚ) :
    ∀ a : ℚ, l.foldl min a = a ∨ l.foldl min a ∈ l := by
  induction l with
  | nil => intro a; left; rfl
  | cons y ys ih =>
    intro a
    rw [List.foldl_cons]
    rcases ih (min a y) with h | h
    · rcases min_cases a y with ⟨he, _⟩ | ⟨he, _⟩
      · left
        rw [h, he]
      · right
        rw [h, he]
        exact List.mem_cons_self y ys
    · right
      exact List.mem_cons_of_mem y h

/-- C7: on a non-empty history, the statistics are: the one-decimal-rounded
average, exact maximum and exact minimum of the temperatures and of the
humidities, the count of entries with each device on, and the history
length. -/
theorem statistics_nonempty_correct (log : List SensorData)
    (hne : log ≠ []) :
    ∃ st : Statistics, get_statistics log = some st ∧
      st.avg_temp =
        roundTo1 ((log.map SensorData.temperature).sum / (log.length : ℚ)) ∧
      st.max_temp ∈ log.map SensorData.temperature ∧
      (∀ x ∈ log.map SensorData.temperature, x ≤ st.max_temp) ∧
      st.min_temp ∈ log.map SensorData.temperature ∧
      (∀ x ∈ log.map SensorData.temperature, st.min_temp ≤ x) ∧
      st.avg_humidity =
        roundTo1 ((log.map SensorData.humidity).sum / (log.length : ℚ)) ∧
      st.max_humidity ∈ log.map SensorData.humidity ∧
      (∀ x ∈ log.map SensorData.humidity, x ≤ st.max_humidity) ∧
      st.min_humidity ∈ log.map SensorData.humidity ∧
      (∀ x ∈ log.map SensorData.humidity, st.min_humidity ≤ x) ∧
      st.fan_runtime = log.countP (fun x => x.fan_status) ∧
      st.pump_runtime = log.countP (fun x => x.pump_status) ∧
      st.total_records = log.length := by
  cases log with
  | nil => exact absurd rfl hne
  | cons d rest =>
    refine ⟨_, rfl, ?_, ?_, ?_, ?_, ?_, ?_, ?_, ?_, ?_, ?_, rfl, rfl, rfl⟩
    · show roundTo1 _ = roundTo1 _
      rw [List.length_map]
    · show listMax d.temperature (rest.map SensorData.temperature) ∈ _
      rcases foldl_max_mem (rest.map SensorData.temperature)
          d.temperature with h | h
      · rw [List.map_cons, listMax, h]
        exact List.mem_cons_self _ _
      · rw [List.map_cons]
        exact List.mem_cons_of_mem _ h
    · intro x hx
      rw [List.map_cons] at hx
      rcases List.mem_cons.mp hx with h | h
      · subst h
        exact self_le_foldl_max _ _
      · exact mem_le_foldl_max _ _ x h
    · show listMin d.temperature (rest.map SensorData.temperature) ∈ _
      rcases foldl_min_mem (rest.map SensorData.temperature)
          d.temperature with h | h
      · rw [List.map_cons, listMin, h]
        exact List.mem_cons_self _ _
      · rw [List.map_cons]
        exact List.mem_cons_of_mem _ h
    · intro x hx
      rw [List.map_cons] at hx
      rcases List.mem_cons.mp hx with h | h
      · subst h
        exact foldl_min_le_self _ _
      · exact foldl_min_le_mem _ _ x h
    · show roundTo1 _ = roundTo1 _
      rw [List.length_map]
    · show listMax d.humidity (rest.map SensorData.humidity) ∈ _
      rcases foldl_max_mem (rest.map SensorData.humidity)
          d.humidity with h | h
      · rw [List.map_cons, listMax, h]
        exact List.mem_cons_self _ _
      · rw [List.map_cons]
        exact List.mem_cons_of_mem _ h
    · intro x hx
      rw [List.map_cons] at hx
      rcases List.mem_cons.mp hx with h | h
      · subst h
        exact self_le_foldl_max _ _
      · exact mem_le_foldl_max _ _ x h
    · show listMin d.humidity (rest.map SensorData.humidity) ∈ _
      rcases foldl_min_mem (rest.map SensorData.humidity)
          d.humidity with h | h
      · rw [List.map_cons, listMin, h]
        exact List.mem_cons_self _ _
      · rw [List.map_cons]
        exact List.mem_cons_of_mem _ h
    · intro x hx
      rw [List.map_cons] at hx
      rcases List.mem_cons.mp hx with h | h
      · subst h
        exact foldl_min_le_self _ _
      · exact foldl_min_le_mem _ _ x h

/-- Witness for `statistics_nonempty_correct`: a one-entry history. -/
theorem statistics_nonempty_correct_witness :
    ∃ st : Statistics,
      get_statistics
          [⟨"2024-01-01 00:00:00", 25, 50, true, false⟩] = some st ∧
      st.avg_temp = roundTo1
        ((([⟨"2024-01-01 00:00:00", 25, 50, true, false⟩] :
            List SensorData).map SensorData.temperature).sum /
          ((([⟨"2024-01-01 00:00:00", 25, 50, true, false⟩] :
            List SensorData).length : ℚ))) ∧
      st.max_temp ∈ ([⟨"2024-01-01 00:00:00", 25, 50, true, false⟩] :
        List SensorData).map SensorData.temperature ∧
      (∀ x ∈ ([⟨"2024-01-01 00:00:00", 25, 50, true, false⟩] :
        List SensorData).map SensorData.temperature, x ≤ st.max_temp) ∧
      st.min_temp ∈ ([⟨"2024-01-01 00:00:00", 25, 50, true, false⟩] :
        List SensorData).map SensorData.temperature ∧
      (∀ x ∈ ([⟨"2024-01-01 00:00:00", 25, 50, true, false⟩] :
        List SensorData).map SensorData.temperature, st.min_temp ≤ x) ∧
      st.avg_humidity = roundTo1
        ((([⟨"2024-01-01 00:00:00", 25, 50, true, false⟩] :
            List SensorData).map SensorData.humidity).sum /
          ((([⟨"2024-01-01 00:00:00", 25, 50, true, false⟩] :
            List SensorData).length : ℚ))) ∧
      st.max_humidity ∈ ([⟨"2024-01-01 00:00:00", 25, 50, true, false⟩] :
        List SensorData).map SensorData.humidity ∧
      (∀ x ∈ ([⟨"2024-01-01 00:00:00", 25, 50, true, false⟩] :
        List SensorData).map SensorData.humidity, x ≤ st.max_humidity) ∧
      st.min_humidity ∈ ([⟨"2024-01-01 00:00:00", 25, 50, true, false⟩] :
        List SensorData).map SensorData.humidity ∧
      (∀ x ∈ ([⟨"2024-01-01 00:00:00", 25, 50, true, false⟩] :
        List SensorData).map SensorData.humidity, st.min_humidity ≤ x) ∧
      st.fan_runtime = ([⟨"2024-01-01 00:00:00", 25, 50, true, false⟩] :
        List SensorData).countP (fun x => x.fan_status) ∧
      st.pump_runtime = ([⟨"2024-01-01 00:00:00", 25, 50, true, false⟩] :
        List SensorData).countP (fun x => x.pump_status) ∧
      st.total_records = ([⟨"2024-01-01 00:00:00", 25, 50, true, false⟩] :
        List SensorData).length :=
  statistics_nonempty_correct
    [⟨"2024-01-01 00:00:00", 25, 50, true, false⟩] (by simp)

/-! ### Rounding-bound helpers -/

theorem pyRound_bounds (x : ℚ) (a b : ℤ) (ha : (a : ℚ) ≤ x)
    (hb : x ≤ (b : ℚ)) : a ≤ pyRound x ∧ pyRound x ≤ b := by
  unfold pyRound
  have hfa : a ≤ ⌊x⌋ := Int.le_floor.mpr ha
  have hfl : (⌊x⌋ : ℚ) ≤ x := Int.floor_le x
  have hfb : ⌊x⌋ ≤ b := by
    have := Int.floor_le_floor hb
    simpa using this
  have hup : ∀ hr : ¬((x : ℚ) - ⌊x⌋ < 1 / 2), ⌊x⌋ + 1 ≤ b := by
    intro hr
    push_neg at hr
    have hxq : (⌊x⌋ : ℚ) + 1 / 2 ≤ x := by linarith
    have : ((⌊x⌋ : ℚ) + 1) < (b : ℚ) + 1 := by linarith
    have : (⌊x⌋ : ℤ) + 1 < b + 1 := by exact_mod_cast this
    omega
  dsimp only
  split_ifs with h1 h2 h3
  · exact ⟨hfa, hfb⟩
  · exact ⟨by omega, hup h1⟩
  · exact ⟨hfa, hfb⟩
  · exact ⟨by omega, hup h1⟩

theorem roundTo1_bounds (x : ℚ) (a b : ℤ) (ha : (a : ℚ) ≤ x)
    (hb : x ≤ (b : ℚ)) : (a : ℚ) ≤ roundTo1 x ∧ roundTo1 x ≤ (b : ℚ) := by
  have h := pyRound_bounds (10 * x) (10 * a) (10 * b)
    (by push_cast; linarith) (by push_cast; linarith)
  unfold roundTo1
  have h1 : ((10 * a : ℤ) : ℚ) ≤ (pyRound (10 * x) : ℚ) := by
    exact_mod_cast h.1
  have h2 : (pyRound (10 * x) : ℚ) ≤ ((10 * b : ℤ) : ℚ) := by
    exact_mod_cast h.2
  push_cast at h1 h2
  constructor <;> linarith

/-- C9: one environment-model advance subtracts the fixed 2.0 cooling bias
from the temperature delta when the fan is on, adds the fixed 5.0
humidifying bias to the humidity delta when the pump is on, applies the
deltas scaled by 0.1 to the internal state, clamps to [15, 45] °C and
[20, 90] %, and returns the clamped values rounded to one decimal, so the
returned reading always lies within those bounds. -/
theorem read_sensors_spec (s : FarmState) (dt dh : ℚ)
    (hdt1 : -2 ≤ dt) (hdt2 : dt ≤ 3) (hdh1 : -5 ≤ dh) (hdh2 : dh ≤ 8) :
    (read_sensors s dt dh).1.current_temp =
      max 15 (min 45 (s.current_temp +
        (dt - (if s.fan_running then 2 else 0)) * (1 / 10))) ∧
    (read_sensors s dt dh).1.current_humidity =
      max 20 (min 90 (s.current_humidity +
        (dh + (if s.pump_running then 5 else 0)) * (1 / 10))) ∧
    (read_sensors s dt dh).2.1 =
      roundTo1 (read_sensors s dt dh).1.current_temp ∧
    (read_sensors s dt dh).2.2 =
      roundTo1 (read_sensors s dt dh).1.current_humidity ∧
    15 ≤ (read_sensors s dt dh).2.1 ∧ (read_sensors s dt dh).2.1 ≤ 45 ∧
    20 ≤ (read_sensors s dt dh).2.2 ∧ (read_sensors s dt dh).2.2 ≤ 90 := by
  have ht1 : (15 : ℚ) ≤ (read_sensors s dt dh).1.current_temp :=
    le_max_left _ _
  have ht2 : (read_sensors s dt dh).1.current_temp ≤ 45 :=
    max_le (by norm_num) (min_le_left _ _)
  have hh1 : (20 : ℚ) ≤ (read_sensors s dt dh).1.current_humidity :=
    le_max_left _ _
  have hh2 : (read_sensors s dt dh).1.current_humidity ≤ 90 :=
    max_le (by norm_num) (min_le_left _ _)
  have hrt := roundTo1_bounds ((read_sensors s dt dh).1.current_temp) 15 45
    (by exact_mod_cast ht1) (by exact_mod_cast ht2)
  have hrh := roundTo1_bounds ((read_sensors s dt dh).1.current_humidity)
    20 90 (by exact_mod_cast hh1) (by exact_mod_cast hh2)
  refine ⟨rfl, rfl, rfl, rfl, ?_, ?_, ?_, ?_⟩
  · exact_mod_cast hrt.1
  · exact_mod_cast hrt.2
  · exact_mod_cast hrh.1
  · exact_mod_cast hrh.2

/-- Witness for `read_sensors_spec`: the initial state with deltas 1 and 1. -/
theorem read_sensors_spec_witness :
    (read_sensors initState 1 1).1.current_temp =
      max 15 (min 45 (initState.current_temp +
        ((1 : ℚ) - (if initState.fan_running then 2 else 0)) * (1 / 10))) ∧
    (read_sensors initState 1 1).1.current_humidity =
      max 20 (min 90 (initState.current_humidity +
        ((1 : ℚ) + (if initState.pump_running then 5 else 0)) * (1 / 10))) ∧
    (read_sensors initState 1 1).2.1 =
      roundTo1 (read_sensors initState 1 1).1.current_temp ∧
    (read_sensors initState 1 1).2.2 =
      roundTo1 (read_sensors initState 1 1).1.current_humidity ∧
    15 ≤ (read_sensors initState 1 1).2.1 ∧
    (read_sensors initState 1 1).2.1 ≤ 45 ∧
    20 ≤ (read_sensors initState 1 1).2.2 ∧
    (read_sensors initState 1 1).2.2 ≤ 90 :=
  read_sensors_spec initState 1 1 (by norm_num) (by norm_num)
    (by norm_num) (by norm_num)

/-- C3 counterexample: setting `temp_threshold` to 1 creates the
band-inverting combination (threshold 1 with the fixed hysteresis 2), yet
the threshold-setting code accepts it and changes the effective thresholds
instead of rejecting it. -/
theorem threshold_validation_missing_cex :
    band_inverting 1 temp_hysteresis initState.humidity_threshold
      humidity_hysteresis ∧
    (set_temp_threshold initState 1).temp_threshold = 1 ∧
    ¬(set_temp_threshold initState 1 = initState) := by
  refine ⟨?_, rfl, ?_⟩
  · norm_num [band_inverting, temp_hysteresis, humidity_hysteresis,
      initState]
  · intro hcontr
    have h1 : (set_temp_threshold initState 1).temp_threshold =
        initState.temp_threshold := by rw [hcontr]
    norm_num [set_temp_threshold, initState] at h1

/-- C3 (amended): the threshold-setting operation performs no band
validation: even a value that forms a band-inverting combination with the
fixed hysteresis is accepted synchronously — the new threshold takes
effect (so the prior thresholds do not remain in effect) and no
`ValidationError` path exists; all other controller fields are untouched. -/
theorem threshold_set_unvalidated (s : FarmState) (v w : ℚ)
    (hinv : band_inverting v temp_hysteresis s.humidity_threshold
      humidity_hysteresis) :
    (set_temp_threshold s v).temp_threshold = v ∧
    (set_temp_threshold s v).humidity_threshold = s.humidity_threshold ∧
    (set_temp_threshold s v).fan_running = s.fan_running ∧
    (set_temp_threshold s v).pump_running = s.pump_running ∧
    (set_temp_threshold s v).data_log = s.data_log ∧
    (set_humidity_threshold s w).humidity_threshold = w ∧
    (set_humidity_threshold s w).temp_threshold = s.temp_threshold :=
  ⟨rfl, rfl, rfl, rfl, rfl, rfl, rfl⟩

/-- Witness for `threshold_set_unvalidated`: the band-inverting new
threshold 1 is accepted on the initial state. -/
theorem threshold_set_unvalidated_witness :
    (set_temp_threshold initState 1).temp_threshold = 1 ∧
    (set_temp_threshold initState 1).humidity_threshold =
      initState.humidity_threshold ∧
    (set_temp_threshold initState 1).fan_running = initState.fan_running ∧
    (set_temp_threshold initState 1).pump_running = initState.pump_running ∧
    (set_temp_threshold initState 1).data_log = initState.data_log ∧
    (set_humidity_threshold initState 50).humidity_threshold = 50 ∧
    (set_humidity_threshold initState 50).temp_threshold =
      initState.temp_threshold :=
  threshold_set_unvalidated initState 1 50
    (by norm_num [band_inverting, temp_hysteresis, humidity_hysteresis,
      initState])
